import Mathlib

/-!
Shallow embedding of `custom_components/kef/media_player.py` (KEF wireless
speaker media-player platform).  The `KefMediaPlayer` entity's mutable
attributes become the `KefState` record; each method becomes a pure Lean
function that takes the device client's responses as explicit inputs and
returns the new state together with the list of device-client calls it
issued.  Exceptions raised by the device client are modelled with `Except`.
-/

/-- The subset of `homeassistant.components.media_player.MediaPlayerState`
values that `media_player.py` assigns to `_attr_state`. -/
inductive MediaPlayerState where
  | off
  | on
  | idle
  | playing
  | paused
  deriving DecidableEq, Repr

/-- The transport-level exception classes caught by `async_update`
(line 298): `ConnectionError`, `TimeoutError`, `tenacity.RetryError`,
`OSError`. -/
inductive TransportError where
  | connectionError
  | timeoutError
  | retryError
  | osError
  deriving DecidableEq, Repr

/-- The keyword arguments of `KefMediaPlayer.set_mode` (all optional,
defaulting to `None` in the source). -/
structure ModeArgs where
  desk_mode : Option Bool
  wall_mode : Option Bool
  phase_correction : Option Bool
  high_pass : Option Bool
  sub_polarity : Option String
  bass_extension : Option String
  deriving DecidableEq, Repr

/-- The dict built by `update_dsp`: six numeric DSP values plus the mode
record from `get_mode()._asdict()`. -/
structure DspSettings where
  desk_db : Rat
  wall_db : Rat
  treble_db : Rat
  high_hz : Rat
  low_hz : Rat
  sub_db : Rat
  mode : ModeArgs
  deriving DecidableEq, Repr

/-- The consolidated status dict returned by
`self._speaker.get_full_status()`: the fields `async_update` reads from it.
`play_state` is accessed with `.get`, so it may be absent (`none`). -/
structure FullStatus where
  source : String
  is_on : Bool
  play_state : Option String
  deriving DecidableEq, Repr

/-- One poll's worth of device-client behaviour: the outcome of
`is_online()`, the outcome of `get_full_status()`, and the values of the
`is_muted` / `volume` attributes read from the speaker object. -/
structure SpeakerResponses where
  is_online : Except TransportError Bool
  get_full_status : Except TransportError FullStatus
  is_muted : Option Bool
  volume : Option Rat
  deriving Repr

/-- The mutable attributes of `KefMediaPlayer` that the claims concern:
`_attr_available`, `_attr_is_volume_muted`, `_attr_volume_level`,
`_attr_source`, `_attr_state`, `_play_state`, `_dsp`. -/
structure KefState where
  available : Bool
  is_volume_muted : Option Bool
  volume_level : Option Rat
  source : Option String
  state : Option MediaPlayerState
  play_state : Option String
  dsp : Option DspSettings
  deriving DecidableEq, Repr

/-- The state after `__init__`: it sets `_attr_available = False`,
`_dsp = None`, `_play_state = None`; the remaining `_attr` fields keep the
`MediaPlayerEntity` base-class default of `None` (unset). -/
def initState : KefState :=
  { available := false
    is_volume_muted := none
    volume_level := none
    source := none
    state := none
    play_state := none
    dsp := none }

/-- Calls the entity can issue on the device client (`self._speaker`). -/
inductive DeviceCall where
  | isOnline
  | getFullStatus
  | turnOn
  | turnOff
  | increaseVolume
  | decreaseVolume
  | setVolume (v : Rat)
  | mute
  | unmute
  | setSource (s : String)
  | setPlayPause
  | nextTrack
  | prevTrack
  | setMode (args : ModeArgs)
  | setDeskDb (v : Rat)
  | setWallDb (v : Rat)
  | setTrebleDb (v : Rat)
  | setHighHz (v : Rat)
  | setLowHz (v : Rat)
  | setSubDb (v : Rat)
  | getMode
  | getDeskDb
  | getWallDb
  | getTrebleDb
  | getHighHz
  | getLowHz
  | getSubDb
  deriving DecidableEq, Repr

/-- Whether a device-client call is one of the DSP getters used by
`update_dsp`. -/
def DeviceCall.isDspGetter : DeviceCall → Bool
  | .getMode => true
  | .getDeskDb => true
  | .getWallDb => true
  | .getTrebleDb => true
  | .getHighHz => true
  | .getLowHz => true
  | .getSubDb => true
  | _ => false

/-- Errors raised synchronously by command handlers:
`NotImplementedError` from `async_turn_on`, `ValueError` from
`async_select_source`. -/
inductive CmdError where
  | notImplementedError
  | valueError (msg : String)
  deriving Repr

/-- The `SOURCES["LSX"]` list (line 45). -/
def SOURCES_LSX : List String := ["Wifi", "Bluetooth", "Aux", "Opt"]

/-- The `SOURCES["LS50"]` list: `SOURCES["LSX"] + ["Usb"]` (line 46). -/
def SOURCES_LS50 : List String := SOURCES_LSX ++ ["Usb"]

/-- The fields written by both the `else` branch (unreachable speaker) and
the `except` branch of `async_update`: `available = False`, muted, source
and volume cleared, `_attr_state = MediaPlayerState.OFF`,
`_play_state = None`.  `_dsp` is untouched. -/
def clearedOffState (s : KefState) : KefState :=
  { s with
    available := false
    is_volume_muted := none
    source := none
    volume_level := none
    state := some MediaPlayerState.off
    play_state := none }

/-- The `_attr_state` computed on the reachable branch of `async_update`
(lines 272-286): `OFF` when `not status["is_on"]`, else refined from the
cached play state with precedence Playing, Paused, Stopped (to IDLE),
fallback ON. -/
def playStateToAttr (is_on : Bool) (ps : Option String) : MediaPlayerState :=
  if !is_on then MediaPlayerState.off
  else if ps = some "Playing" then MediaPlayerState.playing
  else if ps = some "Paused" then MediaPlayerState.paused
  else if ps = some "Stopped" then MediaPlayerState.idle
  else MediaPlayerState.on

/-- `KefMediaPlayer.async_update` (lines 254-306).  Returns the updated
state and the device-client calls issued.  A `TransportError` raised by
`is_online` or `get_full_status` is caught by the `except` clause and
turned into the cleared unavailable state; the function is total, so no
exception propagates. -/
def async_update (dev : SpeakerResponses) (s : KefState) :
    KefState × List DeviceCall :=
  match dev.is_online with
  | Except.error _ => (clearedOffState s, [DeviceCall.isOnline])
  | Except.ok available =>
    if available then
      match dev.get_full_status with
      | Except.error _ =>
        (clearedOffState s, [DeviceCall.isOnline, DeviceCall.getFullStatus])
      | Except.ok status =>
        ({ s with
            available := true
            is_volume_muted := dev.is_muted
            volume_level := dev.volume
            source := some status.source
            play_state := status.play_state
            state := some (playStateToAttr status.is_on status.play_state) },
         [DeviceCall.isOnline, DeviceCall.getFullStatus])
    else
      (clearedOffState s, [DeviceCall.isOnline])

/-- `KefMediaPlayer.async_turn_on` (lines 312-316): raises
`NotImplementedError` before any device call when `_supports_on` is false,
else forwards `turn_on` to the speaker. -/
def async_turn_on (supports_on : Bool) :
    List DeviceCall × Except CmdError Unit :=
  if !supports_on then ([], Except.error CmdError.notImplementedError)
  else ([DeviceCall.turnOn], Except.ok ())

/-- `KefMediaPlayer.async_select_source` (lines 337-342): forwards
`set_source` when `source_list` is not `None` and contains the name, else
raises `ValueError` with no device call. -/
def async_select_source (source_list : Option (List String))
    (source : String) : List DeviceCall × Except CmdError Unit :=
  match source_list with
  | some l =>
    if source ∈ l then ([DeviceCall.setSource source], Except.ok ())
    else
      ([], Except.error
        (CmdError.valueError ("Unknown input source: " ++ source ++ ".")))
  | none =>
    ([], Except.error
      (CmdError.valueError ("Unknown input source: " ++ source ++ ".")))

/-- `KefMediaPlayer.async_media_play` (lines 344-346): issues
`set_play_pause`. -/
def async_media_play : List DeviceCall := [DeviceCall.setPlayPause]

/-- `KefMediaPlayer.async_media_pause` (lines 348-350): issues
`set_play_pause`. -/
def async_media_pause : List DeviceCall := [DeviceCall.setPlayPause]

/-- `KefMediaPlayer.set_mode` (lines 385-403): awaits the device write,
then sets `self._dsp = None`.  If the write raises, the exception
propagates and the assignment on line 403 never runs, so the state is
unchanged. -/
def set_mode (s : KefState) (args : ModeArgs)
    (w : Except TransportError Unit) :
    KefState × List DeviceCall × Except TransportError Unit :=
  match w with
  | Except.ok _ =>
    ({ s with dsp := none }, [DeviceCall.setMode args], Except.ok ())
  | Except.error e => (s, [DeviceCall.setMode args], Except.error e)

/-- `KefMediaPlayer.set_desk_db` (lines 405-408): device write, then
`self._dsp = None`; a raised write leaves the state unchanged. -/
def set_desk_db (s : KefState) (db_value : Rat)
    (w : Except TransportError Unit) :
    KefState × List DeviceCall × Except TransportError Unit :=
  match w with
  | Except.ok _ =>
    ({ s with dsp := none }, [DeviceCall.setDeskDb db_value], Except.ok ())
  | Except.error e => (s, [DeviceCall.setDeskDb db_value], Except.error e)

/-- `KefMediaPlayer.set_wall_db` (lines 410-413). -/
def set_wall_db (s : KefState) (db_value : Rat)
    (w : Except TransportError Unit) :
    KefState × List DeviceCall × Except TransportError Unit :=
  match w with
  | Except.ok _ =>
    ({ s with dsp := none }, [DeviceCall.setWallDb db_value], Except.ok ())
  | Except.error e => (s, [DeviceCall.setWallDb db_value], Except.error e)

/-- `KefMediaPlayer.set_treble_db` (lines 415-418). -/
def set_treble_db (s : KefState) (db_value : Rat)
    (w : Except TransportError Unit) :
    KefState × List DeviceCall × Except TransportError Unit :=
  match w with
  | Except.ok _ =>
    ({ s with dsp := none }, [DeviceCall.setTrebleDb db_value], Except.ok ())
  | Except.error e => (s, [DeviceCall.setTrebleDb db_value], Except.error e)

/-- `KefMediaPlayer.set_high_hz` (lines 420-423). -/
def set_high_hz (s : KefState) (hz_value : Rat)
    (w : Except TransportError Unit) :
    KefState × List DeviceCall × Except TransportError Unit :=
  match w with
  | Except.ok _ =>
    ({ s with dsp := none }, [DeviceCall.setHighHz hz_value], Except.ok ())
  | Except.error e => (s, [DeviceCall.setHighHz hz_value], Except.error e)

/-- `KefMediaPlayer.set_low_hz` (lines 425-428). -/
def set_low_hz (s : KefState) (hz_value : Rat)
    (w : Except TransportError Unit) :
    KefState × List DeviceCall × Except TransportError Unit :=
  match w with
  | Except.ok _ =>
    ({ s with dsp := none }, [DeviceCall.setLowHz hz_value], Except.ok ())
  | Except.error e => (s, [DeviceCall.setLowHz hz_value], Except.error e)

/-- `KefMediaPlayer.set_sub_db` (lines 430-433). -/
def set_sub_db (s : KefState) (db_value : Rat)
    (w : Except TransportError Unit) :
    KefState × List DeviceCall × Except TransportError Unit :=
  match w with
  | Except.ok _ =>
    ({ s with dsp := none }, [DeviceCall.setSubDb db_value], Except.ok ())
  | Except.error e => (s, [DeviceCall.setSubDb db_value], Except.error e)

/-- The spec's availability invariant on the entity state: if
`available = false` then the state is `OFF` and the playback fields are
unset. -/
def availInvariant (s : KefState) : Prop :=
  s.available = false →
    s.state = some MediaPlayerState.off ∧
    s.is_volume_muted = none ∧
    s.volume_level = none ∧
    s.source = none ∧
    s.play_state = none

/-- A reachable snapshot whose `is_on` flag is false but which carries
concrete muted / volume / source / play-state values. -/
def devOffSnapshot : SpeakerResponses :=
  { is_online := Except.ok true
    get_full_status :=
      Except.ok { source := "Aux", is_on := false, play_state := some "Playing" }
    is_muted := some true
    volume := some (1 / 2) }

/-- A reachable snapshot with `is_on` true and transport "Playing". -/
def devPlaying : SpeakerResponses :=
  { is_online := Except.ok true
    get_full_status :=
      Except.ok { source := "Wifi", is_on := true, play_state := some "Playing" }
    is_muted := some false
    volume := some (2 / 5) }

/-- A poll in which the reachability probe raises a timeout. -/
def devTimeout : SpeakerResponses :=
  { is_online := Except.error TransportError.timeoutError
    get_full_status := Except.error TransportError.timeoutError
    is_muted := none
    volume := none }

/-- A fully populated DSP cache value. -/
def exampleDsp : DspSettings :=
  { desk_db := 0
    wall_db := 0
    treble_db := 0
    high_hz := 2000
    low_hz := 80
    sub_db := 0
    mode :=
      { desk_mode := some false
        wall_mode := some false
        phase_correction := some false
        high_pass := some false
        sub_polarity := some "+"
        bass_extension := some "Standard" } }

/-- An entity state whose DSP cache is populated. -/
def dspPopulatedState : KefState := { initState with dsp := some exampleDsp }

/-- C1: the claim as stated is refuted.  On a reachable snapshot with
`is_on = false` that carries muted / volume / source / play-state values,
`async_update` sets `_attr_state` to `OFF` but copies the other fields
verbatim from the snapshot instead of clearing them: here `is_volume_muted`
becomes `some true` and `play_state` becomes `some "Playing"`, not `none`. -/
theorem C1_counterexample :
    (async_update devOffSnapshot initState).1.state = some MediaPlayerState.off ∧
    (async_update devOffSnapshot initState).1.is_volume_muted = some true ∧
    (async_update devOffSnapshot initState).1.volume_level = some (1 / 2) ∧
    (async_update devOffSnapshot initState).1.source = some "Aux" ∧
    (async_update devOffSnapshot initState).1.play_state = some "Playing" := by
  refine ⟨rfl, rfl, rfl, rfl, rfl⟩

/-- C1 (amended): for every reachable snapshot with `is_on = false`,
`async_update` sets the state to `OFF`, but the `muted`, `volumeLevel`,
`source` and `playState` fields are copied verbatim from the snapshot
rather than cleared. -/
theorem C1_off_copies_fields (dev : SpeakerResponses) (s : KefState)
    (status : FullStatus)
    (hon : dev.is_online = Except.ok true)
    (hfs : dev.get_full_status = Except.ok status)
    (hoff : status.is_on = false) :
    (async_update dev s).1.state = some MediaPlayerState.off ∧
    (async_update dev s).1.is_volume_muted = dev.is_muted ∧
    (async_update dev s).1.volume_level = dev.volume ∧
    (async_update dev s).1.source = some status.source ∧
    (async_update dev s).1.play_state = status.play_state := by
  simp [async_update, hon, hfs, playStateToAttr, hoff]

/-- C1 witness: the amended theorem applied to the concrete off snapshot. -/
theorem C1_witness :
    (async_update devOffSnapshot initState).1.state = some MediaPlayerState.off ∧
    (async_update devOffSnapshot initState).1.is_volume_muted = devOffSnapshot.is_muted ∧
    (async_update devOffSnapshot initState).1.volume_level = devOffSnapshot.volume ∧
    (async_update devOffSnapshot initState).1.source = some "Aux" ∧
    (async_update devOffSnapshot initState).1.play_state = some "Playing" :=
  C1_off_copies_fields devOffSnapshot initState
    { source := "Aux", is_on := false, play_state := some "Playing" }
    rfl rfl rfl

/-- C2: the claim as stated is refuted.  Selecting "Wifi" dispatches
successfully (the source change is forwarded) yet the issued calls contain
no `get_full_status` fetch: the supplementary status fetch the claim
requires does not happen. -/
theorem C2_counterexample :
    (async_select_source (some SOURCES_LSX) "Wifi").1 =
      [DeviceCall.setSource "Wifi"] ∧
    (async_select_source (some SOURCES_LSX) "Wifi").2 = Except.ok () ∧
    List.contains (async_select_source (some SOURCES_LSX) "Wifi").1
      DeviceCall.getFullStatus = false := by
  refine ⟨rfl, rfl, rfl⟩

/-- C2 (amended): `async_select_source` never performs a supplementary
status fetch, for any source list and any source name: its device calls
never include `get_full_status`. -/
theorem C2_no_supplementary_fetch (source_list : Option (List String))
    (source : String) :
    List.contains (async_select_source source_list source).1
      DeviceCall.getFullStatus = false := by
  match source_list with
  | none => rfl
  | some l =>
    simp only [async_select_source]
    split
    · rfl
    · rfl

/-- C3: the claim as stated is refuted.  When the device write raises
(here a timeout on `set_desk_db`), the exception propagates before the
`self._dsp = None` line runs: the DSP cache keeps its stale value instead
of being invalidated. -/
theorem C3_counterexample :
    (set_desk_db dspPopulatedState 2
        (Except.error TransportError.timeoutError)).1.dsp = some exampleDsp ∧
    (set_desk_db dspPopulatedState 2
        (Except.error TransportError.timeoutError)).2.2 =
      Except.error TransportError.timeoutError := by
  refine ⟨rfl, rfl⟩

/-- C3 (amended): every DSP-mutating command invalidates the DSP cache
when the device write completes without raising; when the write raises,
the exception propagates and the entity state (including the DSP cache)
is left unchanged. -/
theorem C3_invalidate_on_success_only (s : KefState) (v : Rat)
    (args : ModeArgs) (e : TransportError) :
    (set_mode s args (Except.ok ())).1.dsp = none ∧
    (set_mode s args (Except.error e)).1 = s ∧
    (set_desk_db s v (Except.ok ())).1.dsp = none ∧
    (set_desk_db s v (Except.error e)).1 = s ∧
    (set_wall_db s v (Except.ok ())).1.dsp = none ∧
    (set_wall_db s v (Except.error e)).1 = s ∧
    (set_treble_db s v (Except.ok ())).1.dsp = none ∧
    (set_treble_db s v (Except.error e)).1 = s ∧
    (set_high_hz s v (Except.ok ())).1.dsp = none ∧
    (set_high_hz s v (Except.error e)).1 = s ∧
    (set_low_hz s v (Except.ok ())).1.dsp = none ∧
    (set_low_hz s v (Except.error e)).1 = s ∧
    (set_sub_db s v (Except.ok ())).1.dsp = none ∧
    (set_sub_db s v (Except.error e)).1 = s := by
  refine ⟨rfl, rfl, rfl, rfl, rfl, rfl, rfl, rfl, rfl, rfl, rfl, rfl, rfl, rfl⟩

/-- C4: for every reachable snapshot with `is_on = true`, the derived
state follows the precedence on the raw transport string: "Playing" gives
PLAYING, "Paused" gives PAUSED, "Stopped" gives IDLE, and any other or
missing value gives ON; the result is never OFF. -/
theorem C4_play_state_precedence (dev : SpeakerResponses) (s : KefState)
    (status : FullStatus)
    (hon : dev.is_online = Except.ok true)
    (hfs : dev.get_full_status = Except.ok status)
    (his : status.is_on = true) :
    (status.play_state = some "Playing" →
      (async_update dev s).1.state = some MediaPlayerState.playing) ∧
    (status.play_state = some "Paused" →
      (async_update dev s).1.state = some MediaPlayerState.paused) ∧
    (status.play_state = some "Stopped" →
      (async_update dev s).1.state = some MediaPlayerState.idle) ∧
    (status.play_state ≠ some "Playing" →
      status.play_state ≠ some "Paused" →
      status.play_state ≠ some "Stopped" →
      (async_update dev s).1.state = some MediaPlayerState.on) ∧
    (async_update dev s).1.state ≠ some MediaPlayerState.off := by
  simp only [async_update, hon, hfs, if_true]
  refine ⟨?_, ?_, ?_, ?_, ?_⟩
  · intro h
    simp [playStateToAttr, his, h]
  · intro h
    simp [playStateToAttr, his, h]
  · intro h
    simp [playStateToAttr, his, h]
  · intro h1 h2 h3
    simp [playStateToAttr, his, h1, h2, h3]
  · by_cases h1 : status.play_state = some "Playing"
    · simp [playStateToAttr, his, h1]
    by_cases h2 : status.play_state = some "Paused"
    · simp [playStateToAttr, his, h1, h2]
    by_cases h3 : status.play_state = some "Stopped"
    · simp [playStateToAttr, his, h1, h2, h3]
    · simp [playStateToAttr, his, h1, h2, h3]

/-- C4 witness: the precedence theorem applied to a concrete playing
snapshot. -/
theorem C4_witness :
    (async_update devPlaying initState).1.state = some MediaPlayerState.playing :=
  (C4_play_state_precedence devPlaying initState
    { source := "Wifi", is_on := true, play_state := some "Playing" }
    rfl rfl rfl).1 rfl

/-- C5: every transport-level failure (any of the four caught exception
classes) raised by `is_online` or by `get_full_status` is handled inside
`async_update` — which is a total function, so nothing propagates — and
yields `available = false` with state OFF and the muted / volume / source /
play-state fields unset. -/
theorem C5_transport_error_handled (dev : SpeakerResponses) (s : KefState)
    (e : TransportError)
    (h : dev.is_online = Except.error e ∨
      (dev.is_online = Except.ok true ∧
        dev.get_full_status = Except.error e)) :
    (async_update dev s).1 = clearedOffState s ∧
    (async_update dev s).1.available = false ∧
    (async_update dev s).1.state = some MediaPlayerState.off ∧
    (async_update dev s).1.is_volume_muted = none ∧
    (async_update dev s).1.volume_level = none ∧
    (async_update dev s).1.source = none ∧
    (async_update dev s).1.play_state = none := by
  have hcl : (async_update dev s).1 = clearedOffState s := by
    rcases h with h1 | ⟨h1, h2⟩
    · simp [async_update, h1]
    · simp [async_update, h1, h2]
  refine ⟨hcl, ?_, ?_, ?_, ?_, ?_, ?_⟩ <;> rw [hcl] <;> rfl

/-- C5 witness: the theorem applied to a poll whose reachability probe
raises a timeout. -/
theorem C5_witness :
    (async_update devTimeout initState).1.available = false ∧
    (async_update devTimeout initState).1.state = some MediaPlayerState.off :=
  ⟨(C5_transport_error_handled devTimeout initState
      TransportError.timeoutError (Or.inl rfl)).2.1,
   (C5_transport_error_handled devTimeout initState
      TransportError.timeoutError (Or.inl rfl)).2.2.1⟩

/-- C6: the claim as stated is refuted at the constructed state.
`__init__` sets `_attr_available = False` but never assigns `_attr_state`,
which keeps the base-class default `None`: the state is unset, not OFF, so
the invariant "available = false implies power = Off" does not hold right
after construction. -/
theorem C6_counterexample :
    initState.available = false ∧ initState.state = none := by
  refine ⟨rfl, rfl⟩

/-- C6 (amended): every poll (`async_update`) establishes the invariant —
whenever it leaves `available = false`, the state is OFF and the muted /
volume / source / play-state fields are unset — and every DSP-mutating
command preserves the invariant (it only touches the DSP cache).  The
freshly constructed state alone violates the invariant: its state field is
unset (`None`) rather than OFF until the first poll. -/
theorem C6_avail_invariant (dev : SpeakerResponses) (s : KefState) (v : Rat)
    (args : ModeArgs) (w : Except TransportError Unit) :
    availInvariant (async_update dev s).1 ∧
    (availInvariant s → availInvariant (set_mode s args w).1) ∧
    (availInvariant s → availInvariant (set_desk_db s v w).1) ∧
    (availInvariant s → availInvariant (set_wall_db s v w).1) ∧
    (availInvariant s → availInvariant (set_treble_db s v w).1) ∧
    (availInvariant s → availInvariant (set_high_hz s v w).1) ∧
    (availInvariant s → availInvariant (set_low_hz s v w).1) ∧
    (availInvariant s → availInvariant (set_sub_db s v w).1) := by
  constructor
  · intro hav
    match hdev : dev.is_online with
    | Except.error e =>
      simp [async_update, hdev, clearedOffState]
    | Except.ok true =>
      match hfs : dev.get_full_status with
      | Except.error e =>
        simp [async_update, hdev, hfs, clearedOffState]
      | Except.ok status =>
        exfalso
        have : (async_update dev s).1.available = true := by
          simp [async_update, hdev, hfs]
        rw [hav] at this
        exact Bool.false_ne_true this
    | Except.ok false =>
      simp [async_update, hdev, clearedOffState]
  refine ⟨?_, ?_, ?_, ?_, ?_, ?_, ?_⟩ <;>
    intro hs <;>
    cases w <;>
    simpa [availInvariant, set_mode, set_desk_db, set_wall_db,
      set_treble_db, set_high_hz, set_low_hz, set_sub_db] using hs

/-- C6 witness: the amended theorem at concrete inputs — a timed-out poll
establishes the invariant, and `set_desk_db` preserves it on the cleared
state. -/
theorem C6_witness :
    availInvariant (async_update devTimeout initState).1 ∧
    availInvariant (set_desk_db (clearedOffState initState) 0
      (Except.ok ())).1 :=
  ⟨(C6_avail_invariant devTimeout initState 0
      { desk_mode := none, wall_mode := none, phase_correction := none,
        high_pass := none, sub_polarity := none, bass_extension := none }
      (Except.ok ())).1,
   (C6_avail_invariant devTimeout (clearedOffState initState) 0
      { desk_mode := none, wall_mode := none, phase_correction := none,
        high_pass := none, sub_polarity := none, bass_extension := none }
      (Except.ok ())).2.2.1
     (fun _ => ⟨rfl, rfl, rfl, rfl, rfl⟩)⟩

/-- C7: for every name absent from the source list,
`async_select_source` raises `ValueError` with no device call; for every
member of the list, it forwards exactly the `set_source` call. -/
theorem C7_select_source_validation (l : List String) (source : String) :
    (source ∉ l →
      async_select_source (some l) source =
        ([], Except.error (CmdError.valueError
          ("Unknown input source: " ++ source ++ ".")))) ∧
    (source ∈ l →
      async_select_source (some l) source =
        ([DeviceCall.setSource source], Except.ok ())) := by
  constructor
  · intro h
    simp [async_select_source, h]
  · intro h
    simp [async_select_source, h]

/-- C7 witness: the theorem at concrete names — "Usb" is in the LS50 list
and forwards, "Coaxial" is not and fails fast with no device call. -/
theorem C7_witness :
    async_select_source (some SOURCES_LS50) "Usb" =
      ([DeviceCall.setSource "Usb"], Except.ok ()) ∧
    async_select_source (some SOURCES_LS50) "Coaxial" =
      ([], Except.error (CmdError.valueError
        ("Unknown input source: " ++ "Coaxial" ++ "."))) :=
  ⟨(C7_select_source_validation SOURCES_LS50 "Usb").2 (by decide),
   (C7_select_source_validation SOURCES_LS50 "Coaxial").1 (by decide)⟩

/-- C8: when `supports_on` is false, `async_turn_on` raises
`NotImplementedError` with no device call; when it is true, it forwards
`turn_on` to the device client. -/
theorem C8_turn_on_capability (supports_on : Bool) :
    (supports_on = false →
      async_turn_on supports_on =
        ([], Except.error CmdError.notImplementedError)) ∧
    (supports_on = true →
      async_turn_on supports_on = ([DeviceCall.turnOn], Except.ok ())) := by
  constructor <;> intro h <;> subst h <;> rfl

/-- C8 witness: the theorem at both capability values. -/
theorem C8_witness :
    async_turn_on false = ([], Except.error CmdError.notImplementedError) ∧
    async_turn_on true = ([DeviceCall.turnOn], Except.ok ()) :=
  ⟨(C8_turn_on_capability false).1 rfl, (C8_turn_on_capability true).2 rfl⟩

/-- C9: on every branch of `async_update` the DSP cache field is left
exactly as it was before the call, and none of the issued device calls is
a DSP getter. -/
theorem C9_poll_never_touches_dsp (dev : SpeakerResponses) (s : KefState) :
    (async_update dev s).1.dsp = s.dsp ∧
    List.all (async_update dev s).2
      (fun c => ! DeviceCall.isDspGetter c) = true := by
  match hdev : dev.is_online with
  | Except.error e =>
    simp [async_update, hdev, clearedOffState, DeviceCall.isDspGetter]
  | Except.ok true =>
    match hfs : dev.get_full_status with
    | Except.error e =>
      simp [async_update, hdev, hfs, clearedOffState, DeviceCall.isDspGetter]
    | Except.ok status =>
      simp [async_update, hdev, hfs, DeviceCall.isDspGetter]
  | Except.ok false =>
    simp [async_update, hdev, clearedOffState, DeviceCall.isDspGetter]

/-- C10: `async_media_play` and `async_media_pause` issue the identical
`set_play_pause` call to the device client: the play command and the pause
command are the same operation. -/
theorem C10_play_pause_same :
    async_media_play = async_media_pause ∧
    async_media_play = [DeviceCall.setPlayPause] :=
  ⟨rfl, rfl⟩
